import Mathlib

/-
  Shallow embedding of the LanceDB remote connection core
  (src/rust/lancedb/src/remote/db.rs) and of the JNI connection release
  entry point (src/java/core/lancedb-jni/src/connection.rs).

  HTTP requests and responses are modelled as plain records; the network
  is a function from requests to transport results supplied as a
  parameter (it models `client.send`).  Each operation returns its result
  together with the list of requests it actually sent, so that claims
  about "what was sent" and "no request is sent" can be stated.
-/

namespace LanceDB

/-- HTTP method of a request; only GET and POST are used by this core. -/
inductive Method where
  | GET
  | POST
deriving DecidableEq, Repr

/-- A wire request: method, path relative to the host, query parameters,
headers and an optional binary body (bytes as naturals). -/
structure Request where
  method : Method
  path : String
  query : List (String × String)
  headers : List (String × String)
  body : Option (List Nat)
deriving DecidableEq, Repr

/-- A wire response: HTTP status code and body text. -/
structure Response where
  status : Nat
  body : String
deriving DecidableEq, Repr

/-- Modelled from the spec: the error taxonomy of the crate error enum
(src/rust/lancedb/src/error.rs is not among the shown sources); spec
section 7 lists TransportError, ServiceError, TableAlreadyExists,
TableNotFound, InvalidInput, NotSupported and decode errors. -/
inductive Error where
  | TransportError (message : String)
  | ServiceError (status : Nat) (body : String)
  | TableAlreadyExists (name : String)
  | TableNotFound (name : String)
  | InvalidInput (message : String)
  | NotSupported (message : String)
  | Decode (message : String)
deriving DecidableEq, Repr

/-- Modelled from the spec: the Transport Client holds a base host, an
auth credential and an optional host override
(src/rust/lancedb/src/remote/client.rs is not among the shown sources).
Immutable; requests are path-relative, so none of these attributes show
up in the `Request` record. -/
structure RestfulLanceDbClient where
  host : String
  api_key : String
  region : String
  host_override : Option String
deriving DecidableEq, Repr

/-- Modelled from the spec: `get(path)` builds a GET request with no
query, headers or body. -/
def RestfulLanceDbClient.get (_c : RestfulLanceDbClient) (path : String) : Request :=
  { method := .GET, path := path, query := [], headers := [], body := none }

/-- Modelled from the spec: `post(path)` builds a POST request with no
query, headers or body. -/
def RestfulLanceDbClient.post (_c : RestfulLanceDbClient) (path : String) : Request :=
  { method := .POST, path := path, query := [], headers := [], body := none }

/-- `http::StatusCode::is_success`: 2xx statuses. -/
def isSuccess (status : Nat) : Bool := 200 ≤ status && status < 300

/-- Modelled from the spec: `check_response` fails with a generic
ServiceError carrying status and body text when the status is not a
success, and passes the response through otherwise. -/
def check_response (rsp : Response) : Except Error Response :=
  if isSuccess rsp.status then .ok rsp else .error (.ServiceError rsp.status rsp.body)

/-- Modelled from the spec: the content-type marker identifying the
binary (Arrow IPC) stream format; the constant lives in
src/rust/lancedb/src/remote/mod.rs, which is not among the shown
sources. -/
def ARROW_STREAM_CONTENT_TYPE : String := "application/vnd.apache.arrow.stream"

/-- `reqwest::header::CONTENT_TYPE` rendered as a header name. -/
def CONTENT_TYPE : String := "content-type"

/-- `table1.isPrefixOfChars table2` is true when the first character list
is a prefix of the second; helper for Rust `str::contains`. -/
def isPrefixOfChars : List Char → List Char → Bool
  | [], _ => true
  | _ :: _, [] => false
  | a :: as, b :: bs => a == b && isPrefixOfChars as bs

/-- Helper for Rust `str::contains`: does the needle occur as a
contiguous run somewhere in the haystack? -/
def hasSubChars (needle : List Char) : List Char → Bool
  | [] => needle.isEmpty
  | b :: bs => isPrefixOfChars needle (b :: bs) || hasSubChars needle bs

/-- Rust `haystack.contains(needle)` on strings: substring containment. -/
def containsSub (haystack needle : String) : Bool :=
  hasSubChars needle.data haystack.data

/-- The remote database: owns one Transport Client
(struct RemoteDatabase in remote/db.rs). -/
structure RemoteDatabase where
  client : RestfulLanceDbClient
deriving DecidableEq, Repr

/-- A remote table handle: the connection's client plus the table name
(struct RemoteTable in remote/table.rs; only its construction is in
scope). -/
structure RemoteTable where
  client : RestfulLanceDbClient
  name : String
deriving DecidableEq, Repr

/-- The public table handle, wrapping the remote table
(`Table::new(Arc::new(RemoteTable::new(..)))`). -/
structure Table where
  inner : RemoteTable
deriving DecidableEq, Repr

/-- `Table::new`. -/
def Table.new (inner : RemoteTable) : Table := ⟨inner⟩

/-- `Table::name` delegates to the inner table's name. -/
def Table.name (t : Table) : String := t.inner.name

/-- Options of `table_names`: optional page-size limit and optional
start-after cursor (TableNamesBuilder). -/
structure TableNamesBuilder where
  limit : Option Nat
  start_after : Option String
deriving DecidableEq, Repr

/-- Options of `do_open_table`: the table name, plus storage options
which the remote implementation never reads (OpenTableBuilder). -/
structure OpenTableBuilder where
  name : String
  storage_options : List (String × String)
deriving DecidableEq, Repr

/-- Options of `do_create_table`: the table name is the only field the
remote implementation reads (CreateTableBuilder). -/
structure CreateTableBuilder where
  name : String
deriving DecidableEq, Repr

/-- The decoded body of the table-listing endpoint
(struct ListTablesResponse). -/
structure ListTablesResponse where
  tables : List String
deriving DecidableEq, Repr

/-- The transport: `client.send` either delivers a response or fails.  A
value of this type models the network plus the remote server. -/
def HttpSend : Type := Request → Except Error Response

/-- The request `table_names` builds: GET /v1/table/ with a `limit`
query parameter when a limit is set and a `page_token` query parameter
when a start-after cursor is set (remote/db.rs lines 85-91). -/
def table_names_request (c : RestfulLanceDbClient) (options : TableNamesBuilder) : Request :=
  let req := c.get "/v1/table/"
  let req := match options.limit with
    | some limit => { req with query := req.query ++ [("limit", toString limit)] }
    | none => req
  let req := match options.start_after with
    | some start_after => { req with query := req.query ++ [("page_token", start_after)] }
    | none => req
  req

/-- `table_names` (remote/db.rs lines 84-95): build the listing request,
send it, validate the status, decode the body, return the table list.
`parse` models `rsp.json::<ListTablesResponse>()` (serde, an external
collaborator).  Also returns the list of requests sent. -/
def RemoteDatabase.table_names (db : RemoteDatabase) (send : HttpSend)
    (parse : String → Except Error ListTablesResponse)
    (options : TableNamesBuilder) : Except Error (List String) × List Request :=
  let req := table_names_request db.client options
  match send req with
  | .error e => (.error e, [req])
  | .ok rsp =>
    match check_response rsp with
    | .error e => (.error e, [req])
    | .ok rsp =>
      match parse rsp.body with
      | .error e => (.error e, [req])
      | .ok decoded => (.ok decoded.tables, [req])

/-- The request `do_create_table` builds: POST /v1/table/NAME/create/
with the serialized payload as body, the Arrow-stream content type and
the fixed diagnostic header (remote/db.rs lines 109-115). -/
def create_table_request (c : RestfulLanceDbClient) (name : String) (data_buffer : List Nat) : Request :=
  { c.post ("/v1/table/" ++ name ++ "/create/") with
    body := some data_buffer
    headers := [(CONTENT_TYPE, ARROW_STREAM_CONTENT_TYPE), ("x-request-id", "na")] }

/-- `do_create_table` (remote/db.rs lines 97-133).  `serialized` is the
outcome of the delegated serialization
(`spawn_blocking(move || batches_to_ipc_bytes(data)).await.unwrap()`);
the scheduling of that work is outside the embedding, only its result
and its ordering before the request are kept.  Status 400 is inspected
before the generic check; its body classifies the error. -/
def RemoteDatabase.do_create_table (db : RemoteDatabase) (send : HttpSend)
    (serialized : Except Error (List Nat))
    (options : CreateTableBuilder) : Except Error Table × List Request :=
  match serialized with
  | .error e => (.error e, [])
  | .ok data_buffer =>
    let req := create_table_request db.client options.name data_buffer
    match send req with
    | .error e => (.error e, [req])
    | .ok rsp =>
      if rsp.status = 400 then
        if containsSub rsp.body "already exists" then
          (.error (.TableAlreadyExists options.name), [req])
        else
          (.error (.InvalidInput rsp.body), [req])
      else
        match check_response rsp with
        | .error e => (.error e, [req])
        | .ok _ => (.ok (Table.new ⟨db.client, options.name⟩), [req])

/-- The request `do_open_table` builds: GET /v1/table/NAME/describe/
(remote/db.rs lines 138-140). -/
def describe_table_request (c : RestfulLanceDbClient) (name : String) : Request :=
  c.get ("/v1/table/" ++ name ++ "/describe/")

/-- `do_open_table` (remote/db.rs lines 135-150): describe the table to
confirm existence; 404 becomes TableNotFound, other failures go through
the generic check; success returns a handle.  The storage options of
the builder are never read. -/
def RemoteDatabase.do_open_table (db : RemoteDatabase) (send : HttpSend)
    (options : OpenTableBuilder) : Except Error Table × List Request :=
  let req := describe_table_request db.client options.name
  match send req with
  | .error e => (.error e, [req])
  | .ok resp =>
    if resp.status = 404 then
      (.error (.TableNotFound options.name), [req])
    else
      match check_response resp with
      | .error e => (.error e, [req])
      | .ok _ => (.ok (Table.new ⟨db.client, options.name⟩), [req])

/-- The request `drop_table` builds: POST /v1/table/NAME/drop/ with no
body and no query (remote/db.rs line 153). -/
def drop_table_request (c : RestfulLanceDbClient) (name : String) : Request :=
  c.post ("/v1/table/" ++ name ++ "/drop/")

/-- `drop_table` (remote/db.rs lines 152-157): send the drop request and
validate via the generic check. -/
def RemoteDatabase.drop_table (db : RemoteDatabase) (send : HttpSend)
    (name : String) : Except Error Unit × List Request :=
  let req := drop_table_request db.client name
  match send req with
  | .error e => (.error e, [req])
  | .ok resp =>
    match check_response resp with
    | .error e => (.error e, [req])
    | .ok _ => (.ok (), [req])

/-- `drop_db` (remote/db.rs lines 159-163): always fails with
NotSupported; no request is sent (the transport is never invoked). -/
def RemoteDatabase.drop_db (_db : RemoteDatabase) (_send : HttpSend) :
    Except Error Unit × List Request :=
  (.error (.NotSupported "Dropping databases is not supported in the remote API"), [])

/-- Membership of an error in the documented taxonomy of spec
section 7 (every constructor is listed explicitly). -/
def errClassified : Error → Bool
  | .TransportError _ => true
  | .ServiceError _ _ => true
  | .TableAlreadyExists _ => true
  | .TableNotFound _ => true
  | .InvalidInput _ => true
  | .NotSupported _ => true
  | .Decode _ => true

/-
  JNI connection release
  (src/java/core/lancedb-jni/src/connection.rs lines 82-91).
-/

/-- The native side of a Java connection object: an opaque identifier
standing for the owned Rust `BlockingConnection`. -/
structure BlockingConnection where
  id : Nat
deriving DecidableEq, Repr

/-- What a JNI entry point can do on return: return normally, throw a
catchable Java exception, or abort in native code (a Rust panic from
`expect`). -/
inductive JniOutcome where
  | normal
  | threwException (message : String)
  | panicked (message : String)
deriving DecidableEq, Repr

/-- `env.take_rust_field` per the jni crate contract: remove the field
from the Java object and return it, failing when the field is absent or
was already taken. -/
def take_rust_field (field : Option BlockingConnection) :
    Except String (BlockingConnection × Option BlockingConnection) :=
  match field with
  | some c => .ok (c, none)
  | none => .error "field not set"

/-- `Java_com_lancedb_lancedb_Connection_releaseNativeConnection`
(connection.rs lines 82-91): take the native handle field and drop it;
`.expect(..)` turns a take failure into a Rust panic, not a Java
exception.  Returns the outcome and the field's new contents. -/
def releaseNativeConnection (field : Option BlockingConnection) :
    JniOutcome × Option BlockingConnection :=
  match take_rust_field field with
  | .ok (_, rest) => (.normal, rest)
  | .error _ => (.panicked "Failed to take native Lancedb connection handle", field)

/-- Is the result of an operation a success or an error of the
documented taxonomy? -/
def resultClassified {α : Type} : Except Error α → Bool
  | .ok _ => true
  | .error e => errClassified e

/-- A concrete remote database used to instantiate the theorems. -/
def db0 : RemoteDatabase := ⟨⟨"lancedb.example.com", "api-key", "us-east-1", none⟩⟩

/-- A transport that always answers 200 with a fixed body. -/
def sendOk : HttpSend := fun _ => .ok ⟨200, "ok-body"⟩

/-- A transport that always answers 404. -/
def send404 : HttpSend := fun _ => .ok ⟨404, "table not found"⟩

/-- A transport that always answers 400 with an already-exists body. -/
def send400 : HttpSend := fun _ => .ok ⟨400, "table table1 already exists"⟩

/-- A transport that always fails below the HTTP layer. -/
def sendDown : HttpSend := fun _ => .error (.TransportError "connection refused")

/-- A decoder that always yields a fixed two-name listing. -/
def parse0 : String → Except Error ListTablesResponse :=
  fun _ => .ok ⟨["table1", "table2"]⟩

/-- Every error value lies in the documented taxonomy: the error type
is closed over exactly the documented constructors. -/
theorem errClassified_eq_true (e : Error) : errClassified e = true := by
  cases e <;> rfl

/-- Every operation result is a success or a classified error. -/
theorem resultClassified_eq_true {α : Type} (r : Except Error α) :
    resultClassified r = true := by
  cases r with
  | ok a => rfl
  | error e => exact errClassified_eq_true e

/-- C6: drop_database always fails with NotSupported, whatever the
connection and transport, and sends no request before failing. -/
theorem drop_database_not_supported (db : RemoteDatabase) (send : HttpSend) :
    db.drop_db send =
      (.error (.NotSupported "Dropping databases is not supported in the remote API"), []) :=
  rfl

/-- C10: releasing the native connection when the handle field is absent
or already taken panics in native code (never a catchable Java
exception); when the handle is present, release removes it, so a second
release on the same object hits the panic path. -/
theorem release_native_connection_spec :
    releaseNativeConnection none =
      (.panicked "Failed to take native Lancedb connection handle", none) ∧
    (∀ c : BlockingConnection, releaseNativeConnection (some c) = (.normal, none)) ∧
    (∀ c : BlockingConnection,
      (releaseNativeConnection (releaseNativeConnection (some c)).2).1 =
        .panicked "Failed to take native Lancedb connection handle") ∧
    (∀ field : Option BlockingConnection, ∀ m : String,
      (releaseNativeConnection field).1 ≠ .threwException m) := by
  refine ⟨rfl, fun c => rfl, fun c => rfl, ?_⟩
  intro field m
  cases field <;> simp [releaseNativeConnection, take_rust_field]

/-- C10 witness: the concrete double release on a present handle. -/
theorem release_native_connection_spec_witness :
    (releaseNativeConnection (releaseNativeConnection (some ⟨(7 : Nat)⟩)).2).1 =
      .panicked "Failed to take native Lancedb connection handle" :=
  release_native_connection_spec.2.2.1 ⟨7⟩

/-- C1: when create_table receives a 400 response, the body text decides
the error: TableAlreadyExists of the requested name when the body
contains the substring "already exists", InvalidInput carrying the body
otherwise; in both cases the result is an error, so no table handle is
returned. -/
theorem create_table_bad_request (db : RemoteDatabase) (send : HttpSend)
    (buf : List Nat) (n : String) (rsp : Response)
    (hsend : send (create_table_request db.client n buf) = .ok rsp)
    (h400 : rsp.status = 400) :
    (db.do_create_table send (.ok buf) ⟨n⟩).1 =
      (if containsSub rsp.body "already exists" then
        Except.error (.TableAlreadyExists n)
      else
        Except.error (.InvalidInput rsp.body)) := by
  simp only [RemoteDatabase.do_create_table, hsend, h400, if_pos rfl, if_true]
  split <;> rfl

/-- C1 witness: a 400 response whose body says the table already
exists. -/
theorem create_table_bad_request_witness :
    (db0.do_create_table send400 (.ok [1, 2, 3]) ⟨"table1"⟩).1 =
      .error (.TableAlreadyExists "table1") := by
  have h := create_table_bad_request db0 send400 [1, 2, 3] "table1"
    ⟨400, "table table1 already exists"⟩ rfl rfl
  rw [h]
  rfl

/-- C5: drop_table sends a single POST to the per-table drop path with
no body and no query, succeeds on any success status (no client-side
not-found is synthesized), and fails with the generic service error on
any non-success status. -/
theorem drop_table_contract (db : RemoteDatabase) (send : HttpSend) (n : String) :
    drop_table_request db.client n =
      { method := .POST, path := "/v1/table/" ++ n ++ "/drop/", query := [],
        headers := [], body := none } ∧
    (db.drop_table send n).2 = [drop_table_request db.client n] ∧
    (∀ rsp : Response, send (drop_table_request db.client n) = .ok rsp →
      (isSuccess rsp.status = true → (db.drop_table send n).1 = .ok ()) ∧
      (isSuccess rsp.status = false →
        (db.drop_table send n).1 = .error (.ServiceError rsp.status rsp.body))) := by
  refine ⟨rfl, ?_, ?_⟩
  · simp only [RemoteDatabase.drop_table]
    cases h : send (drop_table_request db.client n) with
    | error e => simp
    | ok rsp =>
      cases hc : check_response rsp with
      | error e => simp [hc]
      | ok rsp2 => simp [hc]
  · intro rsp hsend
    constructor
    · intro hsucc
      simp [RemoteDatabase.drop_table, hsend, check_response, hsucc]
    · intro hfail
      simp [RemoteDatabase.drop_table, hsend, check_response, hfail]

/-- C5 witness: dropping against a transport answering 200 succeeds. -/
theorem drop_table_contract_witness :
    (db0.drop_table sendOk "table1").1 = .ok () := by
  have h := drop_table_contract db0 sendOk "table1"
  exact (h.2.2 ⟨200, "ok-body"⟩ rfl).1 rfl

/-- C2: open_table issues a single GET to the per-table describe path;
a 404 answer becomes TableNotFound of the requested name, any other
non-success answer becomes the generic service error, and a success
answer yields a handle whose name is the requested name; storage
options change neither the request nor the outcome. -/
theorem open_table_contract (db : RemoteDatabase) (send : HttpSend)
    (n : String) (opts opts2 : List (String × String)) :
    describe_table_request db.client n =
      { method := .GET, path := "/v1/table/" ++ n ++ "/describe/",
        query := [], headers := [], body := none } ∧
    db.do_open_table send ⟨n, opts⟩ = db.do_open_table send ⟨n, opts2⟩ ∧
    (db.do_open_table send ⟨n, opts⟩).2 = [describe_table_request db.client n] ∧
    (∀ rsp : Response, send (describe_table_request db.client n) = .ok rsp →
      (rsp.status = 404 →
        (db.do_open_table send ⟨n, opts⟩).1 = .error (.TableNotFound n)) ∧
      (rsp.status ≠ 404 → isSuccess rsp.status = false →
        (db.do_open_table send ⟨n, opts⟩).1 = .error (.ServiceError rsp.status rsp.body)) ∧
      (isSuccess rsp.status = true →
        (db.do_open_table send ⟨n, opts⟩).1 = .ok (Table.new ⟨db.client, n⟩) ∧
        (Table.new (⟨db.client, n⟩ : RemoteTable)).name = n)) := by
  refine ⟨rfl, rfl, ?_, ?_⟩
  · simp only [RemoteDatabase.do_open_table]
    cases h : send (describe_table_request db.client n) with
    | error e => simp
    | ok rsp =>
      by_cases h404 : rsp.status = 404
      · simp [h404]
      · cases hc : check_response rsp with
        | error e => simp [h404, hc]
        | ok rsp2 => simp [h404, hc]
  · intro rsp hsend
    refine ⟨?_, ?_, ?_⟩
    · intro h404
      simp [RemoteDatabase.do_open_table, hsend, h404]
    · intro h404 hfail
      simp [RemoteDatabase.do_open_table, hsend, h404, check_response, hfail]
    · intro hsucc
      have h404 : rsp.status ≠ 404 := by
        intro h
        rw [h] at hsucc
        simp [isSuccess] at hsucc
      refine ⟨?_, rfl⟩
      simp [RemoteDatabase.do_open_table, hsend, h404, check_response, hsucc]

/-- C2 witness: opening against a transport answering 404 fails with
TableNotFound of the requested name. -/
theorem open_table_contract_witness :
    (db0.do_open_table send404 ⟨"table1", []⟩).1 = .error (.TableNotFound "table1") := by
  have h := open_table_contract db0 send404 "table1" [] [("key", "value")]
  exact (h.2.2.2 ⟨404, "table not found"⟩ rfl).1 rfl

/-- C3: table_names builds a single GET to the listing path whose query
holds the limit exactly when a limit is set and the page token exactly
when a start-after cursor is set, and on an accepted, well-formed
answer it returns the decoded table-name sequence unchanged. -/
theorem table_names_contract (db : RemoteDatabase) (send : HttpSend)
    (parse : String → Except Error ListTablesResponse)
    (options : TableNamesBuilder) :
    (table_names_request db.client options).method = .GET ∧
    (table_names_request db.client options).path = "/v1/table/" ∧
    (table_names_request db.client options).query =
      (options.limit.map fun l => ("limit", toString l)).toList ++
        (options.start_after.map fun s => ("page_token", s)).toList ∧
    (db.table_names send parse options).2 = [table_names_request db.client options] ∧
    (∀ rsp : Response, ∀ decoded : ListTablesResponse,
      send (table_names_request db.client options) = .ok rsp →
      isSuccess rsp.status = true → parse rsp.body = .ok decoded →
      (db.table_names send parse options).1 = .ok decoded.tables) := by
  refine ⟨?_, ?_, ?_, ?_, ?_⟩
  · rcases options with ⟨limit, start_after⟩
    cases limit <;> cases start_after <;>
      simp [table_names_request, RestfulLanceDbClient.get]
  · rcases options with ⟨limit, start_after⟩
    cases limit <;> cases start_after <;>
      simp [table_names_request, RestfulLanceDbClient.get]
  · rcases options with ⟨limit, start_after⟩
    cases limit <;> cases start_after <;>
      simp [table_names_request, RestfulLanceDbClient.get, Option.toList]
  · simp only [RemoteDatabase.table_names]
    cases h : send (table_names_request db.client options) with
    | error e => simp
    | ok rsp =>
      cases hc : check_response rsp with
      | error e => simp [hc]
      | ok rsp2 =>
        cases hp : parse rsp2.body with
        | error e => simp [hc, hp]
        | ok decoded => simp [hc, hp]
  · intro rsp decoded hsend hsucc hparse
    simp [RemoteDatabase.table_names, hsend, check_response, hsucc, hparse]

/-- C3 witness: a limit of 2 and a cursor of "table2" against a 200
answer decoded to two names yields those names in order. -/
theorem table_names_contract_witness :
    (db0.table_names sendOk parse0 ⟨some 2, some "table2"⟩).1 =
      .ok ["table1", "table2"] := by
  have h := table_names_contract db0 sendOk parse0 ⟨some 2, some "table2"⟩
  exact h.2.2.2.2 ⟨200, "ok-body"⟩ ⟨["table1", "table2"]⟩ rfl rfl rfl

/-- C4: create_table sends a single POST to the per-table create path
whose body is the serialized payload, with the Arrow-stream
content-type and the fixed x-request-id header, and on a success status
returns a handle bound to this connection's client and the requested
name. -/
theorem create_table_request_and_success (db : RemoteDatabase) (send : HttpSend)
    (buf : List Nat) (n : String) :
    create_table_request db.client n buf =
      { method := .POST, path := "/v1/table/" ++ n ++ "/create/", query := [],
        headers := [(CONTENT_TYPE, ARROW_STREAM_CONTENT_TYPE), ("x-request-id", "na")],
        body := some buf } ∧
    (db.do_create_table send (.ok buf) ⟨n⟩).2 = [create_table_request db.client n buf] ∧
    (∀ rsp : Response, send (create_table_request db.client n buf) = .ok rsp →
      isSuccess rsp.status = true →
      (db.do_create_table send (.ok buf) ⟨n⟩).1 = .ok (Table.new ⟨db.client, n⟩) ∧
        (Table.new (⟨db.client, n⟩ : RemoteTable)).name = n) := by
  refine ⟨rfl, ?_, ?_⟩
  · simp only [RemoteDatabase.do_create_table]
    cases h : send (create_table_request db.client n buf) with
    | error e => simp
    | ok rsp =>
      by_cases h400 : rsp.status = 400
      · simp only [h400, if_pos rfl, if_true]
        split <;> rfl
      · cases hc : check_response rsp with
        | error e => simp [h400, hc]
        | ok rsp2 => simp [h400, hc]
  · intro rsp hsend hsucc
    have h400 : rsp.status ≠ 400 := by
      intro h
      rw [h] at hsucc
      simp [isSuccess] at hsucc
    refine ⟨?_, rfl⟩
    simp [RemoteDatabase.do_create_table, hsend, h400, check_response, hsucc]

/-- C4 witness: creating against a transport answering 200 returns the
handle of the requested name. -/
theorem create_table_request_and_success_witness :
    (db0.do_create_table sendOk (.ok [1, 2, 3]) ⟨"table1"⟩).1 =
      .ok (Table.new ⟨db0.client, "table1"⟩) := by
  have h := create_table_request_and_success db0 sendOk [1, 2, 3] "table1"
  exact (h.2.2 ⟨200, "ok-body"⟩ rfl rfl).1

/-- C7: every connection operation sends at most one request (so no
local retry exists), propagates a transport failure unchanged (so no
silent suppression exists), and delivers either a successful value or
one error of the documented taxonomy; drop_database sends nothing. -/
theorem connection_ops_classified (db : RemoteDatabase) (send : HttpSend)
    (parse : String → Except Error ListTablesResponse)
    (serialized : Except Error (List Nat))
    (tn : TableNamesBuilder) (co : CreateTableBuilder) (oo : OpenTableBuilder)
    (n : String) :
    ((db.table_names send parse tn).2.length ≤ 1 ∧
      resultClassified (db.table_names send parse tn).1 = true ∧
      (∀ e : Error, send (table_names_request db.client tn) = .error e →
        (db.table_names send parse tn).1 = .error e)) ∧
    ((db.do_create_table send serialized co).2.length ≤ 1 ∧
      resultClassified (db.do_create_table send serialized co).1 = true ∧
      (∀ e : Error, serialized = .error e →
        (db.do_create_table send serialized co).1 = .error e) ∧
      (∀ e : Error, ∀ buf : List Nat, serialized = .ok buf →
        send (create_table_request db.client co.name buf) = .error e →
        (db.do_create_table send serialized co).1 = .error e)) ∧
    ((db.do_open_table send oo).2.length ≤ 1 ∧
      resultClassified (db.do_open_table send oo).1 = true ∧
      (∀ e : Error, send (describe_table_request db.client oo.name) = .error e →
        (db.do_open_table send oo).1 = .error e)) ∧
    ((db.drop_table send n).2.length ≤ 1 ∧
      resultClassified (db.drop_table send n).1 = true ∧
      (∀ e : Error, send (drop_table_request db.client n) = .error e →
        (db.drop_table send n).1 = .error e)) ∧
    ((db.drop_db send).2.length = 0 ∧
      resultClassified (db.drop_db send).1 = true) := by
  refine ⟨⟨?_, resultClassified_eq_true _, ?_⟩,
    ⟨?_, resultClassified_eq_true _, ?_, ?_⟩,
    ⟨?_, resultClassified_eq_true _, ?_⟩,
    ⟨?_, resultClassified_eq_true _, ?_⟩,
    rfl, resultClassified_eq_true _⟩
  · simp only [RemoteDatabase.table_names]
    repeat' split
    all_goals simp
  · intro e hsend
    simp [RemoteDatabase.table_names, hsend]
  · simp only [RemoteDatabase.do_create_table]
    repeat' split
    all_goals simp
  · intro e hser
    simp [RemoteDatabase.do_create_table, hser]
  · intro e buf hser hsend
    simp [RemoteDatabase.do_create_table, hser, hsend]
  · simp only [RemoteDatabase.do_open_table]
    repeat' split
    all_goals simp
  · intro e hsend
    simp [RemoteDatabase.do_open_table, hsend]
  · simp only [RemoteDatabase.drop_table]
    repeat' split
    all_goals simp
  · intro e hsend
    simp [RemoteDatabase.drop_table, hsend]

/-- C7 witness: a transport failure during drop_table is surfaced as
exactly that transport error. -/
theorem connection_ops_classified_witness :
    (db0.drop_table sendDown "table1").1 =
      .error (.TransportError "connection refused") := by
  have h := connection_ops_classified db0 sendDown parse0 (.ok [1])
    ⟨none, none⟩ ⟨"table1"⟩ ⟨"table1", []⟩ "table1"
  exact h.2.2.2.1.2.2 (.TransportError "connection refused") rfl

/-- C8: a table handle comes out of do_create_table or do_open_table
only when serialization (for create) and the single request both
succeeded and the response status was a success, and the handle is
exactly the one bound to this connection's client and the requested
name; every error path yields an error value, never a handle. -/
theorem table_handle_only_from_success (db : RemoteDatabase) (send : HttpSend)
    (serialized : Except Error (List Nat)) (co : CreateTableBuilder)
    (oo : OpenTableBuilder) :
    (∀ t : Table, (db.do_create_table send serialized co).1 = .ok t →
      ∃ buf : List Nat, ∃ rsp : Response, serialized = .ok buf ∧
        send (create_table_request db.client co.name buf) = .ok rsp ∧
        isSuccess rsp.status = true ∧ t = Table.new ⟨db.client, co.name⟩) ∧
    (∀ t : Table, (db.do_open_table send oo).1 = .ok t →
      ∃ rsp : Response, send (describe_table_request db.client oo.name) = .ok rsp ∧
        isSuccess rsp.status = true ∧ t = Table.new ⟨db.client, oo.name⟩) := by
  constructor
  · intro t h
    rcases hs : serialized with e | buf
    · rw [hs] at h
      simp [RemoteDatabase.do_create_table] at h
    · rw [hs] at h
      cases hsend : send (create_table_request db.client co.name buf) with
      | error e => simp [RemoteDatabase.do_create_table, hsend] at h
      | ok rsp =>
        by_cases h400 : rsp.status = 400
        · by_cases hex : containsSub rsp.body "already exists" = true
          · simp [RemoteDatabase.do_create_table, hsend, h400, hex] at h
          · simp [RemoteDatabase.do_create_table, hsend, h400, hex] at h
        · cases hc : check_response rsp with
          | error e => simp [RemoteDatabase.do_create_table, hsend, h400, hc] at h
          | ok rsp2 =>
            have hsucc : isSuccess rsp.status = true := by
              by_cases hb : isSuccess rsp.status = true
              · exact hb
              · simp [check_response, hb] at hc
            refine ⟨buf, rsp, rfl, hsend, hsucc, ?_⟩
            simp [RemoteDatabase.do_create_table, hsend, h400, hc] at h
            exact h.symm
  · intro t h
    cases hsend : send (describe_table_request db.client oo.name) with
    | error e => simp [RemoteDatabase.do_open_table, hsend] at h
    | ok rsp =>
      by_cases h404 : rsp.status = 404
      · simp [RemoteDatabase.do_open_table, hsend, h404] at h
      · cases hc : check_response rsp with
        | error e => simp [RemoteDatabase.do_open_table, hsend, h404, hc] at h
        | ok rsp2 =>
          have hsucc : isSuccess rsp.status = true := by
            by_cases hb : isSuccess rsp.status = true
            · exact hb
            · simp [check_response, hb] at hc
          refine ⟨rsp, rfl, hsucc, ?_⟩
          simp [RemoteDatabase.do_open_table, hsend, h404, hc] at h
          exact h.symm

/-- C8 witness: the handle produced by opening against a 200-answering
transport comes with a success status on the single describe answer. -/
theorem table_handle_only_from_success_witness : isSuccess 200 = true := by
  have h := table_handle_only_from_success db0 sendOk (.ok [1])
    ⟨"table1"⟩ ⟨"table1", []⟩
  obtain ⟨rsp, hsend, hsucc, -⟩ := h.2 (Table.new ⟨db0.client, "table1"⟩) rfl
  have hr : (⟨200, "ok-body"⟩ : Response) = rsp := by
    simpa [sendOk] using hsend
  rw [← hr] at hsucc
  exact hsucc

end LanceDB
